import Mathlib

/-!
Verification development for the KiCAD component-generator repository.

The repository's two core pipelines (`src/erj_6en_mpn_generator.py` for
Panasonic ERJ-6EN resistors and `src/gcm_mpn_generator.py` for Murata GCM
capacitors) are shallowly embedded here.  Python floats are modelled as
exact rationals (`ℚ`); every relevant value in the source (base series
entries, decade multiplications, range bounds) is decimal, so the rational
model is exact.  Python's `round` (round-half-to-even) and `int`
(truncation toward zero) are modelled explicitly, and fallible functions
(those that `raise`) return `Except`.
-/

/- The Batteries rational-number operations are `@[irreducible]`, which keeps
the `decide` front-end from evaluating concrete rational arithmetic even
though the kernel accepts it.  Restore the default reducibility so that
closed facts about the embedded functions can be settled by `decide`. -/
set_option allowUnsafeReducibility true in
attribute [semireducible] Rat.add Rat.sub Rat.mul Rat.inv Rat.ofScientific

deriving instance DecidableEq for Except

set_option maxRecDepth 40000

/-- Python `int(q)`: truncation toward zero. -/
def pyInt (q : ℚ) : ℤ :=
  if q < 0 then -(Int.floor (-q)) else Int.floor q

/-- Python `round(q)` with no `ndigits`: round half to even (banker's rounding). -/
def pyRound (q : ℚ) : ℤ :=
  let f := Int.floor q
  let r := q - f
  if r < 1/2 then f
  else if 1/2 < r then f + 1
  else if f % 2 = 0 then f else f + 1

/-- Python `f"{n:0wd}"` for a nonnegative integer: decimal digits of `n`,
zero-padded on the left to at least `w` characters. -/
def natPad (w : Nat) (n : Nat) : String :=
  let s := Nat.repr n
  if s.length < w then String.mk (List.replicate (w - s.length) '0') ++ s else s

/-! ## Resistor encoder (`generate_resistance_code`, erj_6en_mpn_generator.py) -/

/-- Body of `generate_resistance_code` after its range guard.

For `value < 100`: `whole = int(value)`, `decimal = int(round((value - whole) * 10))`,
rendered `f"{whole:02d}R{decimal}"`.  Otherwise a `(significant, multiplier)`
pair is picked by the decade band of `value` and rendered `f"{significant:03d}{multiplier}"`.
The intermediate integers are nonnegative for every value that passes the
guard (`value ≥ 10`), so they are carried as `Nat` via `Int.toNat`. -/
def resistanceCodeTotal (value : ℚ) : String :=
  if value < 100 then
    let whole := (pyInt value).toNat
    let decimal := (pyRound ((value - (whole : ℚ)) * 10)).toNat
    natPad 2 whole ++ "R" ++ Nat.repr decimal
  else
    let sm : ℤ × String :=
      if value < 1000 then (pyRound value, "0")
      else if value < 10000 then (pyRound (value / 10), "1")
      else if value < 100000 then (pyRound (value / 100), "2")
      else if value < 1000000 then (pyRound (value / 1000), "3")
      else (pyRound (value / 10000), "4")
    natPad 3 sm.1.toNat ++ sm.2

/-- `generate_resistance_code`: raises `ValueError` outside `[10, 2_200_000]`,
otherwise returns the 4-character-format code. -/
def generateResistanceCode (value : ℚ) : Except String String :=
  if value < 10 ∨ 2200000 < value then
    Except.error "Resistance value out of range (10Ω to 2.2MΩ)"
  else
    Except.ok (resistanceCodeTotal value)

/-! ## Capacitor encoder (`generate_capacitance_code`, gcm_mpn_generator.py) -/

/-- `generate_capacitance_code`: raises `ValueError` outside `[1e-12, 1e-2]` farads.
Below 10 pF: `f"{int(pf)}R{int((pf - int(pf)) * 10)}"` (both parts truncated).
Otherwise `significant = round(pf)`, incremented by 1 when it is a multiple
of 10, rendered `f"{significant:03d}"`. -/
def generateCapacitanceCode (capacitance : ℚ) : Except String String :=
  if capacitance < 1e-12 ∨ 1e-2 < capacitance then
    Except.error "Capacitance value out of range"
  else
    let pf_value := capacitance * 1e12
    if pf_value < 10 then
      let whole := pyInt pf_value
      let decimal := pyInt ((pf_value - (whole : ℚ)) * 10)
      Except.ok (Int.repr whole ++ "R" ++ Int.repr decimal)
    else
      let significant := pyRound pf_value
      let significant := if significant % 10 = 0 then significant + 1 else significant
      Except.ok (natPad 3 significant.toNat)

/-! ## Standard value generators

Both generators are Python `while` loops over a decade variable that is
multiplied by 10 each iteration; they are embedded as structurally recursive
functions on a fuel argument.  Running out of fuel truncates the emitted
sequence, so every safety property proved for all fuel (range inclusion,
orderedness) holds for the loop; the concrete fuel used below is far more
than any in-range decade walk consumes, so the fuelled runs used in concrete
statements coincide with the Python loops. -/

/-- Loop body of `generate_resistance_values` for one `base_value`:
`while current <= 2_200_000: if current >= 10: yield current; current *= 10`. -/
def genResistanceFromBase : ℚ → Nat → List ℚ
  | _, 0 => []
  | current, fuel + 1 =>
    if current ≤ 2200000 then
      (if 10 ≤ current then [current] else []) ++ genResistanceFromBase (current * 10) fuel
    else []

/-- Fuel for the resistor decade walk: any positive start exceeds the
2.2 MΩ bound well within 32 decades. -/
def resistanceFuel : Nat := 32

/-- `generate_resistance_values(base_values)`: all decade multiples of each
base value, in base-value-major order. -/
def genResistanceValues (base_values : List ℚ) : List ℚ :=
  base_values.bind (fun base_value => genResistanceFromBase base_value resistanceFuel)

/-- The E12 multiplier table local to `generate_standard_values`. -/
def e12Multipliers : List ℚ :=
  [1.0, 1.2, 1.5, 1.8, 2.2, 2.7, 3.3, 3.9, 4.7, 5.6, 6.8, 8.2]

/-- Loop body of `generate_standard_values`: one decade emits
`decade * multiplier` for each E12 multiplier, filtered to
`min_value <= value <= max_value`, then the decade advances tenfold while
`decade <= max_value`. -/
def genStandardValuesAux (min_value max_value : ℚ) : ℚ → Nat → List ℚ
  | _, 0 => []
  | decade, fuel + 1 =>
    if decade ≤ max_value then
      ((e12Multipliers.map (fun multiplier => decade * multiplier)).filter
        (fun value => decide (min_value ≤ value) && decide (value ≤ max_value)))
        ++ genStandardValuesAux min_value max_value (decade * 10) fuel
    else []

/-- Fuel for the capacitor decade walk starting at `1.0e-12`. -/
def standardFuel : Nat := 64

/-- `generate_standard_values(min_value, max_value)`: E12 values by rising
decade starting from the 1 pF decade. -/
def genStandardValues (min_value max_value : ℚ) : List ℚ :=
  genStandardValuesAux min_value max_value 1.0e-12 standardFuel

/-! ## Python `format(x, '.Ng')` on exact decimals

`format_resistance_value` uses `f"{num:g}"` (precision 6) and
`format_capacitance` uses `f"{x:.3g}"` (precision 3).  On the exact decimal
quantities this repository produces, CPython's `%g` renders the value rounded
to N significant digits, in fixed notation when the decimal exponent `e`
satisfies `-4 <= e < N` and in scientific notation otherwise, with trailing
zeros of the fraction removed. -/

/-- Remove trailing `'0'` characters (used on the fractional digits). -/
def stripTrailingZeros (s : String) : String :=
  String.mk ((s.toList.reverse.dropWhile (fun c => c = '0')).reverse)

/-- Decimal exponent of a positive rational: the unique `e` with
`10 ^ e ≤ q < 10 ^ (e + 1)`, computed from digit counts and corrected by
direct comparison. -/
def decExp (q : ℚ) : ℤ :=
  let e0 : ℤ := ((Nat.toDigits 10 q.num.toNat).length : ℤ) - ((Nat.toDigits 10 q.den).length : ℤ)
  if q < 10 ^ e0 then e0 - 1 else if (10 : ℚ) ^ (e0 + 1) ≤ q then e0 + 1 else e0

/-- `%g` rendering of a positive rational at `prec` significant digits. -/
def gFmtPos (prec : Nat) (q : ℚ) : String :=
  let p := max prec 1
  let e0 := decExp q
  let m0 := (pyRound (q / 10 ^ (e0 - (p : ℤ) + 1))).toNat
  let m := if m0 = 10 ^ p then 10 ^ (p - 1) else m0
  let e := if m0 = 10 ^ p then e0 + 1 else e0
  if -4 ≤ e ∧ e < (p : ℤ) then
    if 0 ≤ e then
      let f := p - 1 - e.toNat
      let ip := m / 10 ^ f
      let frs := stripTrailingZeros (natPad f (m % 10 ^ f))
      if frs = "" then Nat.repr ip else Nat.repr ip ++ "." ++ frs
    else
      "0." ++ String.mk (List.replicate (-e - 1).toNat '0') ++ stripTrailingZeros (Nat.repr m)
  else
    let rest := stripTrailingZeros (natPad (p - 1) (m % 10 ^ (p - 1)))
    let mant :=
      if rest = "" then Nat.repr (m / 10 ^ (p - 1))
      else Nat.repr (m / 10 ^ (p - 1)) ++ "." ++ rest
    mant ++ "e" ++ (if e < 0 then "-" else "+") ++ natPad 2 e.natAbs

/-- `format(q, '.precg')` for any rational. -/
def gFmt (prec : Nat) (q : ℚ) : String :=
  if q = 0 then "0"
  else if q < 0 then "-" ++ gFmtPos prec (-q)
  else gFmtPos prec q

/-- `clean_number` inside `format_resistance_value`: `f"{num:g}"`. -/
def cleanNumber (num : ℚ) : String := gFmt 6 num

/-- `format_resistance_value`: human-readable resistance with Ω/kΩ/MΩ prefix. -/
def formatResistanceValue (value : ℚ) : String :=
  if 1000000 ≤ value then cleanNumber (value / 1000000) ++ " MΩ"
  else if 1000 ≤ value then cleanNumber (value / 1000) ++ " kΩ"
  else cleanNumber value ++ " Ω"

/-- `format_capacitance`: human-readable capacitance with pF/nF/µF prefix
(`f"{x:.3g}"` on the scaled value). -/
def formatCapacitance (capacitance : ℚ) : String :=
  if 1e-6 ≤ capacitance then gFmt 3 (capacitance / 1e-6) ++ " µF"
  else if 1e-9 ≤ capacitance then gFmt 3 (capacitance / 1e-9) ++ " nF"
  else gFmt 3 (capacitance / 1e-12) ++ " pF"

/-! ## `parse_capacitance` (gcm_mpn_generator.py) -/

/-- Decimal digit string to a number; `none` on a non-digit.  An empty list
parses as 0 (emptiness is checked by the callers where Python would fail). -/
def digitsToNat (cs : List Char) : Option Nat :=
  cs.foldl
    (fun acc c => acc.bind (fun a => if c.isDigit then some (a * 10 + (c.toNat - 48)) else none))
    (some 0)

/-- Python `str.strip()`: drop whitespace from both ends. -/
def pyStrip (cs : List Char) : List Char :=
  ((cs.dropWhile Char.isWhitespace).reverse.dropWhile Char.isWhitespace).reverse

/-- Python `str.lower()` on the ASCII/Latin-1 text used here. -/
def pyLower (cs : List Char) : List Char := cs.map Char.toLower

/-- Python `pat in s` substring test. -/
def containsSub : List Char → List Char → Bool
  | [], pat => pat.isEmpty
  | c :: rest, pat => List.isPrefixOf pat (c :: rest) || containsSub rest pat

/-- Python `float(s)` on a plain decimal literal
(`[+-]? digits [. digits]? ([eE] [+-]? digits)?`), exactly. -/
def parseFloat (cs : List Char) : Option ℚ :=
  let sign : ℚ := if cs.head? = some '-' then -1 else 1
  let cs := if cs.head? = some '-' ∨ cs.head? = some '+' then cs.tail else cs
  let mantissa := cs.takeWhile (fun c => c ≠ 'e' ∧ c ≠ 'E')
  let expPart := cs.dropWhile (fun c => c ≠ 'e' ∧ c ≠ 'E')
  let intDigits := mantissa.takeWhile (fun c => c ≠ '.')
  let fracTail := mantissa.dropWhile (fun c => c ≠ '.')
  let fracDigits := fracTail.tail
  if intDigits.isEmpty ∧ fracDigits.isEmpty then none
  else
    (digitsToNat intDigits).bind (fun ip =>
      (digitsToNat fracDigits).bind (fun fp =>
        let mantVal : ℚ := (ip : ℚ) + (fp : ℚ) / 10 ^ fracDigits.length
        match expPart with
        | [] => some (sign * mantVal)
        | _ :: t =>
          let esign : ℤ := if t.head? = some '-' then -1 else 1
          let t := if t.head? = some '-' ∨ t.head? = some '+' then t.tail else t
          if t.isEmpty then none
          else (digitsToNat t).map (fun ev => sign * mantVal * 10 ^ (esign * (ev : ℤ)))))

/-- `parse_capacitance`: strip and lowercase, choose the multiplier from a
unit substring (µF/uF, then nF, defaulting to pF), and apply `float` to the
first whitespace-separated token.  `none` models the exceptions Python's
`split()[0]`/`float` would raise on input without a leading number. -/
def parseCapacitance (value_str : String) : Option ℚ :=
  let t := pyLower (pyStrip value_str.toList)
  let multiplier : ℚ :=
    if containsSub t "uf".toList || containsSub t "µf".toList then 1e-6
    else if containsSub t "nf".toList then 1e-9
    else 1e-12
  let w := t.takeWhile (fun c => ¬ c.isWhitespace)
  if w.isEmpty then none
  else (parseFloat w).map (fun num => num * multiplier)

/-! ## Resistor series tables and catalog assembly (erj_6en_mpn_generator.py) -/

/-- The `SeriesType` enumeration, in its Python iteration order E96, E24. -/
inductive SeriesType where
  | E96 : SeriesType
  | E24 : SeriesType
deriving DecidableEq

/-- `E96_BASE_VALUES`. -/
def E96_BASE_VALUES : List ℚ := [
  10.0, 10.2, 10.5, 10.7, 11.0, 11.3, 11.5, 11.8, 12.1, 12.4, 12.7, 13.0,
  13.3, 13.7, 14.0, 14.3, 14.7, 15.0, 15.4, 15.8, 16.2, 16.5, 16.9, 17.4,
  17.8, 18.2, 18.7, 19.1, 19.6, 20.0, 20.5, 21.0, 21.5, 22.1, 22.6, 23.2,
  23.7, 24.3, 24.9, 25.5, 26.1, 26.7, 27.4, 28.0, 28.7, 29.4, 30.1, 30.9,
  31.6, 32.4, 33.2, 34.0, 34.8, 35.7, 36.5, 37.4, 38.3, 39.2, 40.2, 41.2,
  42.2, 43.2, 44.2, 45.3, 46.4, 47.5, 48.7, 49.9, 51.1, 52.3, 53.6, 54.9,
  56.2, 57.6, 59.0, 60.4, 61.9, 63.4, 64.9, 66.5, 68.1, 69.8, 71.5, 73.2,
  75.0, 76.8, 78.7, 80.6, 82.5, 84.5, 86.6, 88.7, 90.9, 93.1, 95.3, 97.6]

/-- `E24_BASE_VALUES`. -/
def E24_BASE_VALUES : List ℚ := [
  10.0, 11.0, 12.0, 13.0, 15.0, 16.0, 18.0, 20.0, 22.0, 24.0, 27.0, 30.0,
  33.0, 36.0, 39.0, 43.0, 47.0, 51.0, 56.0, 62.0, 68.0, 75.0, 82.0, 91.0]

/-- The per-series base-value choice made at the top of `generate_part_numbers`. -/
def seriesBaseValues : SeriesType → List ℚ
  | SeriesType.E96 => E96_BASE_VALUES
  | SeriesType.E24 => E24_BASE_VALUES

/-- `TOLERANCE_MAP`, with each Python dict as an association list in its
(single-entry) insertion order. -/
def TOLERANCE_MAP : SeriesType → List (String × String)
  | SeriesType.E96 => [("F", "1%")]
  | SeriesType.E24 => [("J", "5%")]

/-- `PACKAGING_OPTIONS`. -/
def PACKAGING_OPTIONS : List String := ["V"]

/-- `BASE_SERIES`. -/
def BASE_SERIES : String := "ERJ-6EN"

/-- `FOOTPRINT`. -/
def FOOTPRINT : String := "footprints:R_0805_2012Metric"

/-- `MANUFACTURER`. -/
def MANUFACTURER : String := "Panasonic"

/-- `DATASHEET` (the two adjacent Python string literals, concatenated). -/
def DATASHEET : String :=
  "https://industrial.panasonic.com/cdbs/www-data/pdf/RDA0000/AOA0000C304.pdf"

/-- `VOLTAGE_RATING`. -/
def VOLTAGE_RATING : String := "150V"

/-- `CASE_CODE_IN`. -/
def CASE_CODE_IN : String := "0805"

/-- `CASE_CODE_MM`. -/
def CASE_CODE_MM : String := "2012"

/-- The `PartInfo` NamedTuple of the resistor generator. -/
structure PartInfo where
  symbol_name : String
  reference : String
  value : ℚ
  footprint : String
  datasheet : String
  description : String
  manufacturer : String
  mpn : String
  tolerance : String
  voltage_rating : String
  case_code_in : String
  case_code_mm : String
deriving DecidableEq

/-- `create_part_info`.  The Python function calls `generate_resistance_code`,
whose `ValueError` would propagate; every call made by `generate_part_numbers`
passes a generator value, which lies in `[10, 2_200_000]` (see
`genResistanceValues_mem_range`), so the in-range code body
`resistanceCodeTotal` is used directly here. -/
def createPartInfo (value : ℚ) (tolerance_code tolerance_value packaging : String) : PartInfo :=
  let resistance_code := resistanceCodeTotal value
  let mpn := BASE_SERIES ++ tolerance_code ++ resistance_code ++ packaging
  { symbol_name := "R_" ++ mpn
    reference := "R"
    value := value
    footprint := FOOTPRINT
    datasheet := DATASHEET
    description :=
      "RES SMD " ++ formatResistanceValue value ++ " " ++ tolerance_value
        ++ " 0805 " ++ VOLTAGE_RATING
    manufacturer := MANUFACTURER
    mpn := mpn
    tolerance := tolerance_value
    voltage_rating := VOLTAGE_RATING
    case_code_in := CASE_CODE_IN
    case_code_mm := CASE_CODE_MM }

/-- The tolerance dict picked inside the `generate_part_numbers` loop:
values over 1 MΩ only get `{'F': '1%'}`, otherwise `TOLERANCE_MAP[series_type]`. -/
def toleranceCodesFor (series_type : SeriesType) (value : ℚ) : List (String × String) :=
  if 1000000 < value then [("F", "1%")] else TOLERANCE_MAP series_type

/-- Body of the outer `for series_type in SeriesType` loop of
`generate_part_numbers`. -/
def seriesParts (series_type : SeriesType) : List PartInfo :=
  (genResistanceValues (seriesBaseValues series_type)).bind (fun value =>
    if value ≤ 2200000 then
      (toleranceCodesFor series_type value).bind (fun tc =>
        PACKAGING_OPTIONS.map (fun packaging =>
          createPartInfo value tc.1 tc.2 packaging))
    else [])

/-- `generate_part_numbers` for the resistor family: both series in
enumeration order. -/
def generatePartNumbers : List PartInfo :=
  [SeriesType.E96, SeriesType.E24].bind seriesParts


/-! ## Statement-side definitions

These definitions follow the wording of the specification claims (for
refinement-style statements); they are compared against the source-derived
functions above. -/

/-- The power-of-ten multiplier named by the spec for resistor values at or
above 100: x1 for 100 to 999, x10 for 1k, x100 for 10k, x1000 for 100k,
x10000 at and above 1M. -/
def rMultiplier (value : ℚ) : ℚ :=
  if value < 1000 then 1
  else if value < 10000 then 10
  else if value < 100000 then 100
  else if value < 1000000 then 1000
  else 10000

/-- The multiplier digit named by the spec for the same bands. -/
def rMultDigit (value : ℚ) : String :=
  if value < 1000 then "0"
  else if value < 10000 then "1"
  else if value < 100000 then "2"
  else if value < 1000000 then "3"
  else "4"

/-- The significant value named by the amended C5: the picofarad value
rounded to the nearest integer (ties to even, as Python's round),
incremented by 1 when it is an exact multiple of 10. -/
def capSignificant (capacitance : ℚ) : ℤ :=
  let r := pyRound (capacitance * 1e12)
  if r % 10 = 0 then r + 1 else r

/-! ## Generator lemmas -/

/-- Every value the per-base resistor walk emits lies in `[10, 2_200_000]`:
both bounds are checked by the loop before yielding. -/
theorem genResistanceFromBase_mem_range (fuel : Nat) :
    ∀ (current v : ℚ), v ∈ genResistanceFromBase current fuel →
      10 ≤ v ∧ v ≤ 2200000 := by
  induction fuel with
  | zero => intro current v h; simp [genResistanceFromBase] at h
  | succ n ih =>
    intro current v h
    simp only [genResistanceFromBase] at h
    split_ifs at h with h1 h2
    · rcases List.mem_append.mp h with hl | hr
      · simp only [List.mem_singleton] at hl
        subst hl; exact ⟨h2, h1⟩
      · exact ih _ _ hr
    · simp only [List.nil_append] at h
      exact ih _ _ h
    · simp at h

/-- Every value `generate_resistance_values` emits lies in `[10, 2_200_000]`. -/
theorem genResistanceValues_mem_range (base_values : List ℚ) (v : ℚ)
    (h : v ∈ genResistanceValues base_values) : 10 ≤ v ∧ v ≤ 2200000 := by
  obtain ⟨b, _, hv⟩ := List.mem_bind.mp h
  exact genResistanceFromBase_mem_range _ _ _ hv

/-- The per-base resistor walk is strictly increasing and bounded below by
its starting point. -/
theorem genResistanceFromBase_sorted (fuel : Nat) :
    ∀ current : ℚ, 0 < current →
      (genResistanceFromBase current fuel).Pairwise (· < ·) ∧
      ∀ v ∈ genResistanceFromBase current fuel, current ≤ v := by
  induction fuel with
  | zero =>
    intro c hc
    constructor
    · simp [genResistanceFromBase]
    · intro v hv; simp [genResistanceFromBase] at hv
  | succ n ih =>
    intro c hc
    have hc10 : 0 < c * 10 := by positivity
    obtain ⟨ihp, ihlb⟩ := ih (c * 10) hc10
    constructor
    · simp only [genResistanceFromBase]
      split_ifs with h1 h2
      · refine List.pairwise_append.mpr ⟨?_, ihp, ?_⟩
        · simp
        · intro a ha b hb
          simp only [List.mem_singleton] at ha
          subst ha
          have := ihlb b hb
          linarith
      · simpa using ihp
      · simp
    · intro v hv
      simp only [genResistanceFromBase] at hv
      split_ifs at hv with h1 h2
      · rcases List.mem_append.mp hv with hl | hr
        · simp only [List.mem_singleton] at hl; subst hl; exact le_refl _
        · have := ihlb v hr; linarith
      · simp only [List.nil_append] at hv
        have := ihlb v hv; linarith
      · simp at hv

/-- One decade block of `generate_standard_values`: every kept value is
between `decade` and `decade * 8.2`. -/
theorem e12_block_bounds (mn mx d : ℚ) (hd : 0 < d) :
    ∀ v ∈ (e12Multipliers.map (fun multiplier => d * multiplier)).filter
        (fun value => decide (mn ≤ value) && decide (value ≤ mx)),
      d ≤ v ∧ v ≤ d * (82/10) := by
  intro v hv
  obtain ⟨hvmem, _⟩ := List.mem_filter.mp hv
  obtain ⟨m, hm, rfl⟩ := List.mem_map.mp hvmem
  have h1 : (1 : ℚ) ≤ m := by
    have : ∀ m ∈ e12Multipliers, (1 : ℚ) ≤ m := by decide
    exact this m hm
  have h2 : m ≤ (82/10 : ℚ) := by
    have : ∀ m ∈ e12Multipliers, m ≤ (82/10 : ℚ) := by decide
    exact this m hm
  constructor
  · calc d = d * 1 := by ring
    _ ≤ d * m := by exact mul_le_mul_of_nonneg_left h1 (le_of_lt hd)
  · exact mul_le_mul_of_nonneg_left h2 (le_of_lt hd)

/-- One decade block of `generate_standard_values` is strictly increasing. -/
theorem e12_block_sorted (mn mx d : ℚ) (hd : 0 < d) :
    ((e12Multipliers.map (fun multiplier => d * multiplier)).filter
        (fun value => decide (mn ≤ value) && decide (value ≤ mx))).Pairwise (· < ·) := by
  apply List.Pairwise.filter
  apply List.pairwise_map.mpr
  have hp : e12Multipliers.Pairwise (· < ·) := by decide
  exact hp.imp (fun hab => by exact mul_lt_mul_of_pos_left hab hd)

/-- The capacitor decade walk is strictly increasing and bounded below by the
current decade anchor. -/
theorem genStandardValuesAux_sorted (mn mx : ℚ) (fuel : Nat) :
    ∀ decade : ℚ, 0 < decade →
      (genStandardValuesAux mn mx decade fuel).Pairwise (· < ·) ∧
      ∀ v ∈ genStandardValuesAux mn mx decade fuel, decade ≤ v := by
  induction fuel with
  | zero =>
    intro d hd
    constructor
    · simp [genStandardValuesAux]
    · intro v hv; simp [genStandardValuesAux] at hv
  | succ n ih =>
    intro d hd
    have hd10 : 0 < d * 10 := by positivity
    obtain ⟨ihp, ihlb⟩ := ih (d * 10) hd10
    constructor
    · simp only [genStandardValuesAux]
      split_ifs with h1
      · refine List.pairwise_append.mpr ⟨e12_block_sorted mn mx d hd, ihp, ?_⟩
        intro a ha b hb
        have hab := (e12_block_bounds mn mx d hd a ha).2
        have hbb := ihlb b hb
        linarith
      · simp
    · intro v hv
      simp only [genStandardValuesAux] at hv
      split_ifs at hv with h1
      · rcases List.mem_append.mp hv with hl | hr
        · exact (e12_block_bounds mn mx d hd v hl).1
        · have := ihlb v hr; linarith
      · simp at hv

/-- Every value the capacitor decade walk emits lies in `[min_value, max_value]`:
the filter checks both inclusive bounds. -/
theorem genStandardValuesAux_mem_range (mn mx : ℚ) (fuel : Nat) :
    ∀ (decade v : ℚ), v ∈ genStandardValuesAux mn mx decade fuel →
      mn ≤ v ∧ v ≤ mx := by
  induction fuel with
  | zero => intro d v h; simp [genStandardValuesAux] at h
  | succ n ih =>
    intro d v h
    simp only [genStandardValuesAux] at h
    split_ifs at h with h1
    · rcases List.mem_append.mp h with hl | hr
      · obtain ⟨_, hf⟩ := List.mem_filter.mp hl
        simp only [Bool.and_eq_true, decide_eq_true_eq] at hf
        exact hf
      · exact ih _ _ hr
    · simp at h

/-! ## Claims -/

/-- Claim C1, counterexample: the resistor pipeline's output is not strictly
increasing.  Running `generate_resistance_values` on `E24_BASE_VALUES`, the
sixth value emitted is 1,000,000 (the last decade multiple of base 10.0) and
the seventh is 11 (the start of base 11.0), so some value is not strictly
greater than the one emitted before it. -/
theorem C1_counterexample :
    (genResistanceValues E24_BASE_VALUES).get? 5 = some 1000000 ∧
    (genResistanceValues E24_BASE_VALUES).get? 6 = some 11 ∧
    ¬ List.Chain' (· < ·) (genResistanceValues E24_BASE_VALUES) := by
  refine ⟨by decide, by decide, fun hch => ?_⟩
  have h := (List.chain'_iff_get.mp hch) 5
    (by decide : 5 < (genResistanceValues E24_BASE_VALUES).length - 1)
  have hx : (genResistanceValues E24_BASE_VALUES).get
      ⟨5, by decide⟩ = 1000000 := by decide
  have hy : (genResistanceValues E24_BASE_VALUES).get
      ⟨6, by decide⟩ = 11 := by decide
  rw [hx, hy] at h
  norm_num at h

/-- Claim C1 as amended: the capacitor generator `generate_standard_values`
is strictly increasing for every fixed range (lower decades precede higher);
the resistor generator `generate_resistance_values` is strictly increasing
only within the subsequence produced from one base value — the full sequence
restarts below 100 at each new base value. -/
theorem C1_amended :
    (∀ min_value max_value : ℚ,
        (genStandardValues min_value max_value).Pairwise (· < ·)) ∧
    (∀ (base_value : ℚ) (fuel : Nat), 0 < base_value →
        (genResistanceFromBase base_value fuel).Pairwise (· < ·)) := by
  constructor
  · intro mn mx
    have h := genStandardValuesAux_sorted mn mx standardFuel (1.0e-12) (by decide)
    simpa [genStandardValues] using h.1
  · intro b fuel hb
    exact (genResistanceFromBase_sorted fuel b hb).1

/-- Witness for C1_amended at the capacitor pipeline's actual range and at
resistor base value 10.0. -/
theorem C1_witness :
    (genStandardValues 220e-12 0.1e-6).Pairwise (· < ·) ∧
    (genResistanceFromBase 10.0 resistanceFuel).Pairwise (· < ·) :=
  ⟨C1_amended.1 220e-12 0.1e-6, C1_amended.2 10.0 resistanceFuel (by decide)⟩

/-- Claim C7: every value emitted by `generate_resistance_values` satisfies
`10 ≤ v ≤ 2_200_000` (for any base-value list), every value emitted by
`generate_standard_values(min_value, max_value)` satisfies
`min_value ≤ v ≤ max_value`, and values exactly equal to a bound are
included — at the capacitor pipeline's range `(220e-12, 0.1e-6)` both the
minimum 220 pF and the maximum 0.1 µF are emitted. -/
theorem C7_range_inclusion :
    (∀ (base_values : List ℚ) (v : ℚ), v ∈ genResistanceValues base_values →
        10 ≤ v ∧ v ≤ 2200000) ∧
    (∀ (min_value max_value v : ℚ), v ∈ genStandardValues min_value max_value →
        min_value ≤ v ∧ v ≤ max_value) ∧
    (220e-12 : ℚ) ∈ genStandardValues 220e-12 0.1e-6 ∧
    (0.1e-6 : ℚ) ∈ genStandardValues 220e-12 0.1e-6 := by
  refine ⟨genResistanceValues_mem_range, ?_, by decide, by decide⟩
  intro mn mx v hv
  exact genStandardValuesAux_mem_range mn mx standardFuel _ v
    (by simpa [genStandardValues] using hv)

/-- Witness for C7_range_inclusion at concrete emitted values. -/
theorem C7_witness :
    (10 ≤ (1000000 : ℚ) ∧ (1000000 : ℚ) ≤ 2200000) ∧
    ((220e-12 : ℚ) ≤ 1e-9 ∧ (1e-9 : ℚ) ≤ 0.1e-6) :=
  ⟨C7_range_inclusion.1 E24_BASE_VALUES 1000000 (by decide),
   C7_range_inclusion.2.1 220e-12 0.1e-6 1e-9 (by decide)⟩

/-- Claim C3: `generate_resistance_code` succeeds exactly on `[10, 2_200_000]`
ohms (returning a code for every value inside, a `ValueError` otherwise), and
in particular 5.0 and 2,300,000.0 raise the range error. -/
theorem C3_range_error_iff :
    (∀ value : ℚ,
        (∃ s, generateResistanceCode value = Except.ok s) ↔
          (10 ≤ value ∧ value ≤ 2200000)) ∧
    generateResistanceCode 5.0 =
      Except.error "Resistance value out of range (10Ω to 2.2MΩ)" ∧
    generateResistanceCode 2300000.0 =
      Except.error "Resistance value out of range (10Ω to 2.2MΩ)" := by
  refine ⟨?_, by decide, by decide⟩
  intro v
  constructor
  · rintro ⟨s, hs⟩
    unfold generateResistanceCode at hs
    split_ifs at hs with h
    push_neg at h
    exact h
  · intro hv
    have h : ¬ (v < 10 ∨ 2200000 < v) := by push_neg; exact hv
    exact ⟨resistanceCodeTotal v, by rw [generateResistanceCode, if_neg h]⟩

/-- Witness for C3_range_error_iff: 4,700 Ω is inside the range and encodes. -/
theorem C3_witness : ∃ s, generateResistanceCode 4700 = Except.ok s :=
  (C3_range_error_iff.1 4700).mpr ⟨by norm_num, by norm_num⟩

/-- Claim C4, counterexample: the claim says the encoder raises for every
capacitance outside [1 pF, 10,000 pF], but 1e-7 F (100,000 pF, far above
10,000 pF = 1e-8 F) returns a code: the guard in the source is
`capacitance > 1e-2`, not `> 1e-8`. -/
theorem C4_counterexample :
    generateCapacitanceCode 1e-7 = Except.ok "100001" ∧
    (10000 * 1e-12 : ℚ) < 1e-7 :=
  ⟨by decide, by decide⟩

/-- Claim C4 as amended: `generate_capacitance_code` succeeds exactly on
`[1e-12, 1e-2]` farads (1 pF to 10^10 pF), per the guard actually written. -/
theorem C4_amended :
    ∀ capacitance : ℚ,
      (∃ s, generateCapacitanceCode capacitance = Except.ok s) ↔
        (1e-12 ≤ capacitance ∧ capacitance ≤ 1e-2) := by
  intro c
  constructor
  · rintro ⟨s, hs⟩
    unfold generateCapacitanceCode at hs
    split_ifs at hs with h
    push_neg at h
    exact h
  · intro hc
    have h : ¬ (c < 1e-12 ∨ 1e-2 < c) := by push_neg; exact hc
    rw [generateCapacitanceCode]
    rw [if_neg h]
    by_cases hp : c * 1e12 < 10
    · exact ⟨_, by rw [if_pos hp]⟩
    · exact ⟨_, by rw [if_neg hp]⟩

/-- Witness for C4_amended: 1 nF is inside the declared bounds and encodes. -/
theorem C4_witness : ∃ s, generateCapacitanceCode 1e-9 = Except.ok s :=
  (C4_amended 1e-9).mpr ⟨by norm_num, by norm_num⟩

/-- Claim C2, counterexample: for in-range value 999.6 the code returns
"10000" — a five-character string whose significand part has four digits —
while the claim promises three significant digits followed by one multiplier
digit (a four-character code) for every in-range value at or above 100:
`round(999.6) = 1000` overflows the three-digit significand of the
`value < 1000` band. -/
theorem C2_counterexample :
    generateResistanceCode 999.6 = Except.ok "10000" ∧
    ("10000" : String).length ≠ 4 :=
  ⟨by decide, by decide⟩

/-- Claim C2 as amended: for every in-range value at or above 100 the code is
the significant digits of `round(value / multiplier)` (Python ties-to-even
rounding), zero-padded to three digits — four digits in the carry cases where
the rounded quotient reaches 1000 — followed by the band's multiplier digit
(0 for 100-999, 1 for 1k, 2 for 10k, 3 for 100k, 4 at and above 1M); the
documented examples 10.0 → "10R0", 10.2 → "10R2", 100.0 → "1000" and
2,200,000.0 → "2204" all hold. -/
theorem C2_amended :
    (∀ value : ℚ, 100 ≤ value → value ≤ 2200000 →
        generateResistanceCode value =
          Except.ok (natPad 3 (pyRound (value / rMultiplier value)).toNat
            ++ rMultDigit value)) ∧
    generateResistanceCode 10.0 = Except.ok "10R0" ∧
    generateResistanceCode 10.2 = Except.ok "10R2" ∧
    generateResistanceCode 100.0 = Except.ok "1000" ∧
    generateResistanceCode 2200000.0 = Except.ok "2204" := by
  refine ⟨?_, by decide, by decide, by decide, by decide⟩
  intro v h1 h2
  have hg : ¬ (v < 10 ∨ 2200000 < v) := by push_neg; constructor <;> linarith
  have h100 : ¬ v < 100 := by linarith
  rw [generateResistanceCode, if_neg hg]
  rw [resistanceCodeTotal, if_neg h100]
  unfold rMultiplier rMultDigit
  split_ifs <;> simp [div_one]

/-- Witness for C2_amended at 4,700 Ω (band 1, code "4701"). -/
theorem C2_witness :
    generateResistanceCode 4700 =
      Except.ok (natPad 3 (pyRound ((4700 : ℚ) / rMultiplier 4700)).toNat
        ++ rMultDigit 4700) :=
  C2_amended.1 4700 (by norm_num) (by norm_num)

/-- Every value at most 999 zero-pads to exactly three digits. -/
theorem natPad_three_length : ∀ n : Nat, n ≤ 999 → (natPad 3 n).length = 3 := by
  decide

/-- Claim C5, counterexample: 1 nF (1000 pF) is in range and at least 10 pF,
rounds to 1000, is incremented to 1001 (multiple of 10), and renders as the
four-character code "1001" — not "exactly three zero-padded digits" as the
claim states for every in-range capacitance of at least 10 pF. -/
theorem C5_counterexample :
    generateCapacitanceCode 1e-9 = Except.ok "1001" ∧
    ("1001" : String).length ≠ 3 :=
  ⟨by decide, by decide⟩

/-- Claim C5 as amended: for every in-range capacitance of at least 10 pF the
code is the picofarad value rounded to the nearest integer (Python
ties-to-even), incremented by 1 when that integer is an exact multiple of 10,
zero-padded to at least three digits — exactly three whenever the resulting
integer is at most 999; in particular 100 pF encodes as "101". -/
theorem C5_amended :
    (∀ capacitance : ℚ, 1e-12 ≤ capacitance → capacitance ≤ 1e-2 →
        10 ≤ capacitance * 1e12 →
        generateCapacitanceCode capacitance =
          Except.ok (natPad 3 (capSignificant capacitance).toNat) ∧
        (capSignificant capacitance ≤ 999 →
          (natPad 3 (capSignificant capacitance).toNat).length = 3)) ∧
    generateCapacitanceCode 100e-12 = Except.ok "101" := by
  refine ⟨?_, by decide⟩
  intro c h1 h2 h10
  have hg : ¬ (c < 1e-12 ∨ 1e-2 < c) := by push_neg; exact ⟨h1, h2⟩
  have hp : ¬ (c * 1e12 < 10) := not_lt.mpr h10
  constructor
  · rw [generateCapacitanceCode, if_neg hg]
    rw [if_neg hp]
    rfl
  · intro h999
    have hle : (capSignificant c).toNat ≤ 999 := by omega
    exact natPad_three_length _ hle

/-- Witness for C5_amended at 47 pF (code "047"... in fact "047" is padded
from 47; the length clause applies since 47 ≤ 999). -/
theorem C5_witness :
    (generateCapacitanceCode (47 * 1e-12) =
      Except.ok (natPad 3 (capSignificant (47 * 1e-12)).toNat)) ∧
    (capSignificant (47 * 1e-12) ≤ 999 →
      (natPad 3 (capSignificant (47 * 1e-12)).toNat).length = 3) :=
  C5_amended.1 (47 * 1e-12) (by decide) (by decide) (by decide)

/-- Claim C9, counterexample: at 1.26 pF the claim's "one-digit rounded
decimal part" would give "1R3" (`round(2.6) = 3`), but the code truncates —
`int((pf - int(pf)) * 10)` — and returns "1R2". -/
theorem C9_counterexample :
    generateCapacitanceCode 1.26e-12 = Except.ok "1R2" ∧
    Int.repr (pyInt ((1.26e-12 : ℚ) * 1e12)) ++ "R" ++
      Int.repr (pyRound (((1.26e-12 : ℚ) * 1e12
        - (pyInt ((1.26e-12 : ℚ) * 1e12) : ℚ)) * 10)) = "1R3" ∧
    ("1R2" : String) ≠ "1R3" :=
  ⟨by decide, by decide, by decide⟩

/-- Claim C9 as amended: for capacitances of at least 1 pF whose picofarad
value is below 10, the code is the (unpadded) whole picofarad part, the
separator 'R', and the one-digit truncated — not rounded — decimal part;
in particular 5 pF encodes as "5R0". -/
theorem C9_amended :
    (∀ capacitance : ℚ, 1e-12 ≤ capacitance → capacitance * 1e12 < 10 →
        generateCapacitanceCode capacitance =
          Except.ok (Int.repr (pyInt (capacitance * 1e12)) ++ "R" ++
            Int.repr (pyInt ((capacitance * 1e12
              - (pyInt (capacitance * 1e12) : ℚ)) * 10)))) ∧
    generateCapacitanceCode 5e-12 = Except.ok "5R0" := by
  refine ⟨?_, by decide⟩
  intro c h1 h10
  have h2 : c ≤ 1e-2 := by linarith
  have hg : ¬ (c < 1e-12 ∨ 1e-2 < c) := by push_neg; exact ⟨h1, h2⟩
  rw [generateCapacitanceCode, if_neg hg]
  rw [if_pos h10]

/-- Witness for C9_amended at 2.2 pF (code "2R2"). -/
theorem C9_witness :
    generateCapacitanceCode 2.2e-12 =
      Except.ok (Int.repr (pyInt ((2.2e-12 : ℚ) * 1e12)) ++ "R" ++
        Int.repr (pyInt (((2.2e-12 : ℚ) * 1e12
          - (pyInt ((2.2e-12 : ℚ) * 1e12) : ℚ)) * 10))) :=
  C9_amended.1 2.2e-12 (by decide) (by decide)

/-- Membership of the tolerance-overridden record in one series' part list:
any generator value over 1 MΩ contributes `createPartInfo v "F" "1%" "V"`. -/
theorem createPartInfo_mem_seriesParts (st : SeriesType) (v : ℚ)
    (hv : v ∈ genResistanceValues (seriesBaseValues st))
    (h1 : 1000000 < v) (h2 : v ≤ 2200000) :
    createPartInfo v "F" "1%" "V" ∈ seriesParts st := by
  unfold seriesParts
  apply List.mem_bind.mpr
  refine ⟨v, hv, ?_⟩
  rw [if_pos h2]
  apply List.mem_bind.mpr
  refine ⟨("F", "1%"), ?_, ?_⟩
  · unfold toleranceCodesFor
    rw [if_pos h1]
    simp
  · simp [PACKAGING_OPTIONS]

/-- Membership of the tolerance-overridden record in the full catalog. -/
theorem createPartInfo_mem_generatePartNumbers (st : SeriesType) (v : ℚ)
    (hv : v ∈ genResistanceValues (seriesBaseValues st))
    (h1 : 1000000 < v) (h2 : v ≤ 2200000) :
    createPartInfo v "F" "1%" "V" ∈ generatePartNumbers := by
  unfold generatePartNumbers
  apply List.mem_bind.mpr
  exact ⟨st, by cases st <;> simp, createPartInfo_mem_seriesParts st v hv h1 h2⟩

/-- Claim C6: every record of the resistor catalog whose value exceeds
1,000,000 Ω carries tolerance "1%" (code 'F' in its MPN) and no other:
the override replaces the series' tolerance dict before the
tolerance × packaging cross-product, for the E24 series as well. -/
theorem C6_tolerance_override :
    ∀ p ∈ generatePartNumbers, 1000000 < p.value →
      p.tolerance = "1%" ∧
      ∃ rc, p.mpn = "ERJ-6EN" ++ "F" ++ rc ++ "V" := by
  intro p hp hv
  obtain ⟨st, _, hp1⟩ := List.mem_bind.mp hp
  unfold seriesParts at hp1
  obtain ⟨value, _, hp2⟩ := List.mem_bind.mp hp1
  split_ifs at hp2 with hle
  · obtain ⟨tc, htc, hp3⟩ := List.mem_bind.mp hp2
    obtain ⟨pkg, hpkg, hp4⟩ := List.mem_map.mp hp3
    subst hp4
    have hv' : 1000000 < value := hv
    unfold toleranceCodesFor at htc
    rw [if_pos hv'] at htc
    simp only [List.mem_singleton] at htc
    subst htc
    simp only [PACKAGING_OPTIONS, List.mem_singleton] at hpkg
    subst hpkg
    exact ⟨rfl, resistanceCodeTotal value, rfl⟩
  · simp at hp2

/-- Witness for C6_tolerance_override at the catalog record for 1.1 MΩ. -/
theorem C6_witness :
    (createPartInfo 1100000 "F" "1%" "V").tolerance = "1%" ∧
    ∃ rc, (createPartInfo 1100000 "F" "1%" "V").mpn = "ERJ-6EN" ++ "F" ++ rc ++ "V" :=
  C6_tolerance_override _
    (createPartInfo_mem_generatePartNumbers SeriesType.E96 1100000
      (List.mem_bind.mpr ⟨11.0, by decide, by decide⟩)
      (by norm_num) (by norm_num))
    (by norm_num [createPartInfo])

/-- Claim C10: for every base value shared by `E96_BASE_VALUES` and
`E24_BASE_VALUES`, each of its decade multiples above 1 MΩ produces the very
same record (the override makes tolerance code and value coincide) once per
series, so the catalog contains the record at least twice — two entries with
the same MPN. -/
theorem C10_duplicates :
    ∀ b : ℚ, b ∈ E96_BASE_VALUES → b ∈ E24_BASE_VALUES →
      ∀ v ∈ genResistanceFromBase b resistanceFuel, 1000000 < v →
        2 ≤ generatePartNumbers.count (createPartInfo v "F" "1%" "V") := by
  intro b hb96 hb24 v hv h1
  have h2 : v ≤ 2200000 := (genResistanceFromBase_mem_range resistanceFuel b v hv).2
  have hm96 := createPartInfo_mem_seriesParts SeriesType.E96 v
    (List.mem_bind.mpr ⟨b, hb96, hv⟩) h1 h2
  have hm24 := createPartInfo_mem_seriesParts SeriesType.E24 v
    (List.mem_bind.mpr ⟨b, hb24, hv⟩) h1 h2
  have hsplit : generatePartNumbers
      = seriesParts SeriesType.E96 ++ seriesParts SeriesType.E24 := by
    simp [generatePartNumbers]
  rw [hsplit, List.count_append]
  have c96 := List.count_pos_iff_mem.mpr hm96
  have c24 := List.count_pos_iff_mem.mpr hm24
  omega

/-- Witness for C10_duplicates: the 1.1 MΩ record (from shared base 11.0)
appears at least twice in the catalog. -/
theorem C10_witness :
    2 ≤ generatePartNumbers.count (createPartInfo 1100000 "F" "1%" "V") :=
  C10_duplicates 11.0 (by decide) (by decide) 1100000 (by decide) (by norm_num)

/-- Claim C8: for every value the capacitor pipeline actually formats (the
E12 values of the GCM155 range 220 pF to 0.1 µF), parsing the formatted
string returns exactly the original value (the rational model is exact, so
"within floating tolerance" holds with zero error), and therefore formatting
the parsed value reproduces the original string. -/
theorem C8_roundtrip :
    ∀ v ∈ genStandardValues 220e-12 0.1e-6,
      parseCapacitance (formatCapacitance v) = some v ∧
      formatCapacitance ((parseCapacitance (formatCapacitance v)).getD 0)
        = formatCapacitance v := by
  decide

/-- Witness for C8_roundtrip at 220 pF. -/
theorem C8_witness :
    parseCapacitance (formatCapacitance 220e-12) = some (220e-12 : ℚ) ∧
    formatCapacitance ((parseCapacitance (formatCapacitance (220e-12 : ℚ))).getD 0)
      = formatCapacitance (220e-12 : ℚ) :=
  C8_roundtrip 220e-12 (by decide)
